import Mathlib

/-!
Verification of the qaku-cache replication-trigger pipeline.

The repository contains two variants of the per-announcement handler:
the function named cache in main.go, and the method Cache.OnNewEnvelope
(present in two near-identical copies in a second file).  Both are
embedded below.  Outbound HTTP is modelled by an oracle (World); the
Prometheus counters and the size histogram are modelled as deltas
produced by one run; Go's deferred
  if err != nil { snapFailure.Inc() }
is translated by giving every early return the failure delta that the
value of err at that return point dictates.
-/

namespace QakuCache

/-- JSON values.  A raw message payload is modelled by its parse result:
an Option Json where none stands for bytes that are not well-formed JSON. -/
inductive Json where
  | null
  | bool (b : Bool)
  | num (n : Int)
  | str (s : String)
  | arr (elems : List Json)
  | obj (fields : List (String × Json))

/-- Key lookup in a JSON object, later duplicate keys winning, as in Go's
encoding/json where each occurrence of a key overwrites the struct field.
(Go's case-insensitive key fallback and mixed-type duplicate keys are not
modelled; no claim depends on them.) -/
def lookupField : List (String × Json) → String → Option Json
  | [], _ => none
  | (k, v) :: rest, key =>
    match lookupField rest key with
    | some v2 => some v2
    | none => if k = key then some v else none

/-- CacheRequest from main.go: the nested payload of a QakuMessage. -/
structure CacheRequest where
  CID : String
  Owner : String
  Hash : String

/-- QakuMessage from main.go.  The Go field Type is spelled type here
because Type is reserved in Lean. -/
structure QakuMessage where
  type : String
  Payload : CacheRequest
  Timestamp : Int
  Signature : String
  Signer : String

/-- CodexManifest from main.go. -/
structure CodexManifest where
  DatasetSize : Int
  BlockSize : Int
  Protected : Bool
  TreeCid : String
  UploadedAt : String

/-- CodexDataContent from main.go. -/
structure CodexDataContent where
  Cid : String
  Manifest : CodexManifest

/-- Largest value of Go's 64-bit int. -/
def int64Max : Int := 9223372036854775807

/-- Smallest value of Go's 64-bit int. -/
def int64Min : Int := -9223372036854775808

/-- Go encoding/json semantics for a string-typed struct field: absent or
null leaves the zero value, a JSON string is taken, anything else errors. -/
def decodeStringField (fields : List (String × Json)) (key : String) : Except Unit String :=
  match lookupField fields key with
  | none => Except.ok ""
  | some Json.null => Except.ok ""
  | some (Json.str s) => Except.ok s
  | some _ => Except.error ()

/-- Go encoding/json semantics for an int-typed struct field: absent or
null leaves 0, an integer within int64 range is taken, anything else errors. -/
def decodeIntField (fields : List (String × Json)) (key : String) : Except Unit Int :=
  match lookupField fields key with
  | none => Except.ok 0
  | some Json.null => Except.ok 0
  | some (Json.num n) =>
    if n < int64Min ∨ n > int64Max then Except.error () else Except.ok n
  | some _ => Except.error ()

/-- Go encoding/json semantics for a bool-typed struct field. -/
def decodeBoolField (fields : List (String × Json)) (key : String) : Except Unit Bool :=
  match lookupField fields key with
  | none => Except.ok false
  | some Json.null => Except.ok false
  | some (Json.bool b) => Except.ok b
  | some _ => Except.error ()

/-- The zero value of CacheRequest. -/
def zeroCacheRequest : CacheRequest := { CID := "", Owner := "", Hash := "" }

/-- json.Unmarshal of a JSON value into a CacheRequest. -/
def unmarshalCacheRequest (j : Json) : Except Unit CacheRequest :=
  match j with
  | Json.null => Except.ok zeroCacheRequest
  | Json.obj fields => do
    let cid ← decodeStringField fields "cid"
    let owner ← decodeStringField fields "owner"
    let hash ← decodeStringField fields "hash"
    Except.ok { CID := cid, Owner := owner, Hash := hash }
  | _ => Except.error ()

/-- Decoding of the payload field of a QakuMessage: absent leaves the
zero CacheRequest, otherwise the value must unmarshal as a CacheRequest. -/
def decodeCacheRequestField (fields : List (String × Json)) (key : String) :
    Except Unit CacheRequest :=
  match lookupField fields key with
  | none => Except.ok zeroCacheRequest
  | some j => unmarshalCacheRequest j

/-- json.Unmarshal of a raw payload into a QakuMessage, as performed at the
top of cache and of Cache.OnNewEnvelope.  none (malformed bytes) errors;
a JSON null leaves the zero message; a non-object errors; an object is
decoded field by field, unknown keys ignored, missing keys left at their
zero values (in particular no field, cid included, is required). -/
def unmarshalQakuMessage : Option Json → Except Unit QakuMessage
  | none => Except.error ()
  | some Json.null =>
    Except.ok { type := "", Payload := zeroCacheRequest, Timestamp := 0,
                Signature := "", Signer := "" }
  | some (Json.obj fields) => do
    let t ← decodeStringField fields "type"
    let p ← decodeCacheRequestField fields "payload"
    let ts ← decodeIntField fields "timestamp"
    let sig ← decodeStringField fields "signature"
    let signer ← decodeStringField fields "signer"
    Except.ok { type := t, Payload := p, Timestamp := ts, Signature := sig, Signer := signer }
  | some _ => Except.error ()

/-- The zero value of CodexManifest. -/
def zeroCodexManifest : CodexManifest :=
  { DatasetSize := 0, BlockSize := 0, Protected := false, TreeCid := "", UploadedAt := "" }

/-- json.Unmarshal of a JSON value into a CodexManifest. -/
def unmarshalCodexManifest (j : Json) : Except Unit CodexManifest :=
  match j with
  | Json.null => Except.ok zeroCodexManifest
  | Json.obj fields => do
    let ds ← decodeIntField fields "datasetSize"
    let bs ← decodeIntField fields "blockSize"
    let pr ← decodeBoolField fields "protected"
    let tc ← decodeStringField fields "treeCid"
    let ua ← decodeStringField fields "uploadedAt"
    Except.ok { DatasetSize := ds, BlockSize := bs, Protected := pr, TreeCid := tc, UploadedAt := ua }
  | _ => Except.error ()

/-- Decoding of the manifest field of a CodexDataContent. -/
def decodeManifestField (fields : List (String × Json)) (key : String) :
    Except Unit CodexManifest :=
  match lookupField fields key with
  | none => Except.ok zeroCodexManifest
  | some j => unmarshalCodexManifest j

/-- json.Unmarshal of the manifest response body into a CodexDataContent. -/
def unmarshalCodexDataContent (j : Json) : Except Unit CodexDataContent :=
  match j with
  | Json.null => Except.ok { Cid := "", Manifest := zeroCodexManifest }
  | Json.obj fields => do
    let cid ← decodeStringField fields "cid"
    let m ← decodeManifestField fields "manifest"
    Except.ok { Cid := cid, Manifest := m }
  | _ => Except.error ()

/-- Result of reading the body of an HTTP response: io.ReadAll may fail,
the bytes may not parse as JSON, or they parse to a JSON value. -/
inductive BodyRead where
  | readErr
  | notJson
  | json (j : Json)

/-- An HTTP GET response as seen by the pipeline: a status code and a body. -/
structure HttpGetResp where
  statusCode : Nat
  body : BodyRead

/-- The outbound-HTTP oracle: what the storage network answers for each
request URL.  none models a transport error (http.Get or http.Post
returning a non-nil error); for POST only the status code matters. -/
structure World where
  get : String → Option HttpGetResp
  post : String → Option Nat

/-- One outbound HTTP request made by the pipeline. -/
inductive Call where
  | get (url : String)
  | post (url : String)
deriving DecidableEq

/-- Observable effects of one Cache.OnNewEnvelope run: the outbound calls
in order, the deltas of the success and failure counters, the histogram
observations (float64 division modelled exactly over the rationals), and
whether the returned error was nil. -/
structure RunResult where
  calls : List Call
  succ : Nat
  fail : Nat
  obs : List ℚ
  retNil : Bool
deriving DecidableEq

/-- Observable effects of one run of the cache function of main.go, which
has no histogram and no return value. -/
structure CacheResult where
  calls : List Call
  succ : Nat
  fail : Nat
deriving DecidableEq

/-- getCodexUrl: the CODEX_API_URL environment value, with the built-in
default when it is empty or absent (os.Getenv yields "" for absent). -/
def getCodexUrl (envVal : String) : String :=
  if envVal = "" then "http://codex:8080" else envVal

/-- The manifest-query URL built by fmt.Sprintf in the source. -/
def manifestUrl (base cid : String) : String :=
  base ++ "/api/codex/v1/data/" ++ cid ++ "/network/manifest"

/-- The replication-trigger URL built by fmt.Sprintf in the source. -/
def triggerUrl (base cid : String) : String :=
  base ++ "/api/codex/v1/data/" ++ cid ++ "/network"

/-- The part of Cache.OnNewEnvelope that runs after json.Unmarshal of the
payload succeeded, producing the message cr.  Mirrors the source line by
line; each early return carries fail := 1 exactly when err is non-nil at
that point, reproducing the deferred snapFailure.Inc().  Note that in the
dataset-too-big branch the source returns err while err is nil there, so
neither counter moves and the returned error is nil; note also that
snapSizes.Observe runs before the trigger POST. -/
def OnNewEnvelopeDecoded (w : World) (codexApiUrlEnv : String) (maxDatasetSize : Int)
    (cr : QakuMessage) : RunResult :=
  let url := getCodexUrl codexApiUrlEnv
  let mUrl := manifestUrl url cr.Payload.CID
  match w.get mUrl with
  | none => { calls := [Call.get mUrl], succ := 0, fail := 1, obs := [], retNil := false }
  | some manifestResp =>
    if manifestResp.statusCode ≠ 200 then
      { calls := [Call.get mUrl], succ := 0, fail := 1, obs := [], retNil := false }
    else
      match manifestResp.body with
      | BodyRead.readErr =>
        { calls := [Call.get mUrl], succ := 0, fail := 1, obs := [], retNil := false }
      | BodyRead.notJson =>
        { calls := [Call.get mUrl], succ := 0, fail := 1, obs := [], retNil := false }
      | BodyRead.json bodyJson =>
        match unmarshalCodexDataContent bodyJson with
        | Except.error _ =>
          { calls := [Call.get mUrl], succ := 0, fail := 1, obs := [], retNil := false }
        | Except.ok cdc =>
          if cdc.Manifest.DatasetSize > maxDatasetSize then
            { calls := [Call.get mUrl], succ := 0, fail := 0, obs := [], retNil := true }
          else
            let pUrl := triggerUrl url cr.Payload.CID
            match w.post pUrl with
            | none =>
              { calls := [Call.get mUrl, Call.post pUrl], succ := 0, fail := 1,
                obs := [(cdc.Manifest.DatasetSize : ℚ) / 1024], retNil := false }
            | some st =>
              if st ≠ 200 then
                { calls := [Call.get mUrl, Call.post pUrl], succ := 0, fail := 1,
                  obs := [(cdc.Manifest.DatasetSize : ℚ) / 1024], retNil := false }
              else
                { calls := [Call.get mUrl, Call.post pUrl], succ := 1, fail := 0,
                  obs := [(cdc.Manifest.DatasetSize : ℚ) / 1024], retNil := true }

/-- Cache.OnNewEnvelope on a raw payload: json.Unmarshal first, the rest
on success. -/
def OnNewEnvelope (w : World) (codexApiUrlEnv : String) (maxDatasetSize : Int)
    (payload : Option Json) : RunResult :=
  match unmarshalQakuMessage payload with
  | Except.error _ => { calls := [], succ := 0, fail := 1, obs := [], retNil := false }
  | Except.ok cr => OnNewEnvelopeDecoded w codexApiUrlEnv maxDatasetSize cr

/-- The part of the cache function of main.go after a successful
json.Unmarshal.  It differs from OnNewEnvelopeDecoded in three places of
the source: a non-200 manifest status and a non-200 trigger status return
while err is still nil (so the deferred snapFailure.Inc() does not fire),
and there is no snapSizes histogram in that file. -/
def cacheDecoded (w : World) (codexApiUrlEnv : String) (maxDatasetSize : Int)
    (cr : QakuMessage) : CacheResult :=
  let url := getCodexUrl codexApiUrlEnv
  let mUrl := manifestUrl url cr.Payload.CID
  match w.get mUrl with
  | none => { calls := [Call.get mUrl], succ := 0, fail := 1 }
  | some manifestResp =>
    if manifestResp.statusCode ≠ 200 then
      { calls := [Call.get mUrl], succ := 0, fail := 0 }
    else
      match manifestResp.body with
      | BodyRead.readErr => { calls := [Call.get mUrl], succ := 0, fail := 1 }
      | BodyRead.notJson => { calls := [Call.get mUrl], succ := 0, fail := 1 }
      | BodyRead.json bodyJson =>
        match unmarshalCodexDataContent bodyJson with
        | Except.error _ => { calls := [Call.get mUrl], succ := 0, fail := 1 }
        | Except.ok cdc =>
          if cdc.Manifest.DatasetSize > maxDatasetSize then
            { calls := [Call.get mUrl], succ := 0, fail := 0 }
          else
            let pUrl := triggerUrl url cr.Payload.CID
            match w.post pUrl with
            | none => { calls := [Call.get mUrl, Call.post pUrl], succ := 0, fail := 1 }
            | some st =>
              if st ≠ 200 then
                { calls := [Call.get mUrl, Call.post pUrl], succ := 0, fail := 0 }
              else
                { calls := [Call.get mUrl, Call.post pUrl], succ := 1, fail := 0 }

/-- The cache function of main.go on a raw payload. -/
def cache (w : World) (codexApiUrlEnv : String) (maxDatasetSize : Int)
    (payload : Option Json) : CacheResult :=
  match unmarshalQakuMessage payload with
  | Except.error _ => { calls := [], succ := 0, fail := 1 }
  | Except.ok cr => cacheDecoded w codexApiUrlEnv maxDatasetSize cr

/-- Outcome tag of Go's strconv.Atoi. -/
inductive AtoiErr where
  | ok
  | invalid
  | outOfRange
deriving DecidableEq

/-- Decimal digits to a natural number. -/
def digitsToNat : List Char → Nat → Nat
  | [], acc => acc
  | c :: rest, acc => digitsToNat rest (acc * 10 + (c.toNat - 48))

/-- Splitting the optional leading sign, as ParseInt does. -/
def atoiSplitSign : List Char → Bool × List Char
  | '-' :: rest => (true, rest)
  | '+' :: rest => (false, rest)
  | cs => (false, cs)

/-- The digits-to-value part of ParseInt: at least one character, all
digits, the signed value clamped to the 64-bit range with ErrRange, a
syntax error yielding (0, ErrSyntax). -/
def atoiCore (neg : Bool) (digits : List Char) : Int × AtoiErr :=
  if digits.isEmpty || !(digits.all Char.isDigit) then
    (0, AtoiErr.invalid)
  else if (if neg then (-1 : Int) else 1) * (digitsToNat digits 0 : Int) > int64Max then
    (int64Max, AtoiErr.outOfRange)
  else if (if neg then (-1 : Int) else 1) * (digitsToNat digits 0 : Int) < int64Min then
    (int64Min, AtoiErr.outOfRange)
  else ((if neg then (-1 : Int) else 1) * (digitsToNat digits 0 : Int), AtoiErr.ok)

/-- Go's strconv.Atoi (equivalently ParseInt base 10 into a 64-bit int). -/
def goAtoi (s : String) : Int × AtoiErr :=
  atoiCore (atoiSplitSign s.toList).1 (atoiSplitSign s.toList).2

/-- defaultMaxSize from the source: 5 * 1024 * 1024 bytes. -/
def defaultMaxSize : Int := 5 * 1024 * 1024

/-- The startup resolution of maxDatasetSize in main: strconv.Atoi of the
QAKU_CACHE_MAX_SIZE environment value (err only logged), the parsed value
replacing the default exactly when it is strictly positive. -/
def resolveMaxDatasetSize (envVal : String) : Int :=
  if (goAtoi envVal).1 > 0 then (goAtoi envVal).1 else defaultMaxSize

/-- The payload of end-to-end scenario A of the spec. -/
def samplePayload : Json :=
  Json.obj [("type", Json.str "persist"),
            ("payload", Json.obj [("cid", Json.str "zCID1"), ("owner", Json.str "alice"),
                                  ("hash", Json.str "h1")]),
            ("timestamp", Json.num 1700000000)]

/-- The QakuMessage that samplePayload decodes to. -/
def sampleCr : QakuMessage :=
  { type := "persist",
    Payload := { CID := "zCID1", Owner := "alice", Hash := "h1" },
    Timestamp := 1700000000, Signature := "", Signer := "" }

/-- A manifest response body with the given datasetSize. -/
def manifestJsonOfSize (n : Int) : Json :=
  Json.obj [("cid", Json.str "zCID1"),
            ("manifest", Json.obj [("datasetSize", Json.num n), ("blockSize", Json.num 65536),
                                   ("protected", Json.bool false), ("treeCid", Json.str "t1"),
                                   ("uploadedAt", Json.str "2024-01-01")])]

/-- The CodexDataContent that manifestJsonOfSize n decodes to. -/
def cdcOfSize (n : Int) : CodexDataContent :=
  { Cid := "zCID1",
    Manifest := { DatasetSize := n, BlockSize := 65536, Protected := false,
                  TreeCid := "t1", UploadedAt := "2024-01-01" } }

/-- A 200 manifest response with the given datasetSize. -/
def respOfSize (n : Int) : HttpGetResp :=
  { statusCode := 200, body := BodyRead.json (manifestJsonOfSize n) }

/-- World of scenario A: a 2 MB manifest resolves and the trigger accepts. -/
def wOK : World := { get := fun _ => some (respOfSize 2000000), post := fun _ => some 200 }

/-- World of scenario B: a 20 MB manifest, over the 5 MiB default. -/
def wBig : World := { get := fun _ => some (respOfSize 20000000), post := fun _ => some 200 }

/-- World of scenario C: the manifest query yields status 404. -/
def w404 : World :=
  { get := fun _ => some { statusCode := 404, body := BodyRead.readErr }, post := fun _ => some 200 }

/-- World where the manifest resolves but the trigger answers 500. -/
def wTriggerFail : World :=
  { get := fun _ => some (respOfSize 2000000), post := fun _ => some 500 }

/-- A well-formed payload whose request carries no cid field at all. -/
def noCidPayload : Json :=
  Json.obj [("type", Json.str "persist"),
            ("payload", Json.obj [("owner", Json.str "alice"), ("hash", Json.str "h1")])]

/-- The QakuMessage that noCidPayload decodes to: CID is the zero value. -/
def noCidCr : QakuMessage :=
  { type := "persist", Payload := { CID := "", Owner := "alice", Hash := "h1" },
    Timestamp := 0, Signature := "", Signer := "" }

example : unmarshalQakuMessage (some samplePayload) = Except.ok sampleCr := rfl

example : unmarshalCodexDataContent (manifestJsonOfSize 2000000) = Except.ok (cdcOfSize 2000000) := rfl

example : (OnNewEnvelope wOK "" 5242880 (some samplePayload)).succ = 1 := rfl

example : (OnNewEnvelope wOK "" 5242880 (some samplePayload)).obs = [(2000000 : ℚ) / 1024] := rfl

example : (OnNewEnvelope wBig "" 5242880 (some samplePayload)).fail = 0 := rfl

example : (OnNewEnvelope wBig "" 5242880 (some samplePayload)).retNil = true := rfl

example : (OnNewEnvelope w404 "" 5242880 (some samplePayload)).fail = 1 := rfl

example : (cache w404 "" 5242880 (some samplePayload)).fail = 0 := rfl

example : (OnNewEnvelope wTriggerFail "" 5242880 (some samplePayload)).obs = [(2000000 : ℚ) / 1024] := rfl

example : (OnNewEnvelope wTriggerFail "" 5242880 (some samplePayload)).fail = 1 := rfl

example : goAtoi "" = (0, AtoiErr.invalid) := rfl

example : goAtoi "10485760" = (10485760, AtoiErr.ok) := by decide

example : resolveMaxDatasetSize "abc" = 5242880 := by decide

example : resolveMaxDatasetSize "-7" = 5242880 := by decide

/-- The announcement stages before the size policy, read off the same
branches as the handlers: some (cr, cdc) when the payload decoded to cr,
the manifest query answered with status 200, its body was read and
parsed to cdc; none when any of those stages failed. -/
def manifestOutcome (w : World) (env : String) (payload : Option Json) :
    Option (QakuMessage × CodexDataContent) :=
  match unmarshalQakuMessage payload with
  | Except.error _ => none
  | Except.ok cr =>
    match w.get (manifestUrl (getCodexUrl env) cr.Payload.CID) with
    | none => none
    | some manifestResp =>
      if manifestResp.statusCode ≠ 200 then none
      else
        match manifestResp.body with
        | BodyRead.readErr => none
        | BodyRead.notJson => none
        | BodyRead.json bodyJson =>
          match unmarshalCodexDataContent bodyJson with
          | Except.error _ => none
          | Except.ok cdc => some (cr, cdc)

/-- The announcement was denied by the size policy: all stages up to the
policy succeeded and the dataset size exceeds the threshold. -/
def policyDenied (w : World) (env : String) (maxSize : Int) (payload : Option Json) : Prop :=
  ∃ cr cdc, manifestOutcome w env payload = some (cr, cdc) ∧
    cdc.Manifest.DatasetSize > maxSize

/-- The announcement passed the size policy: all stages up to the policy
succeeded and the dataset size is within the threshold.  Nothing is said
about the trigger call. -/
def policyPermitted (w : World) (env : String) (maxSize : Int) (payload : Option Json) : Prop :=
  ∃ cr cdc, manifestOutcome w env payload = some (cr, cdc) ∧
    cdc.Manifest.DatasetSize ≤ maxSize

/-- Claim C1: for every announcement whose manifest resolves, the size
policy permits replication iff the manifest datasetSize is at most the
configured maximum; a POST to the storage network happens exactly when
the size is within the threshold, and never for an oversized dataset.
Stated for both handler variants, Cache.OnNewEnvelope and cache. -/
theorem C1_size_policy_gates_trigger
    (w : World) (env : String) (maxSize : Int) (payload : Option Json)
    (cr : QakuMessage) (resp : HttpGetResp) (bj : Json) (cdc : CodexDataContent)
    (hdec : unmarshalQakuMessage payload = Except.ok cr)
    (hget : w.get (manifestUrl (getCodexUrl env) cr.Payload.CID) = some resp)
    (hst : resp.statusCode = 200)
    (hbody : resp.body = BodyRead.json bj)
    (hman : unmarshalCodexDataContent bj = Except.ok cdc) :
    (∀ u, Call.post u ∈ (OnNewEnvelope w env maxSize payload).calls ↔
      (u = triggerUrl (getCodexUrl env) cr.Payload.CID ∧ cdc.Manifest.DatasetSize ≤ maxSize)) ∧
    (∀ u, Call.post u ∈ (cache w env maxSize payload).calls ↔
      (u = triggerUrl (getCodexUrl env) cr.Payload.CID ∧ cdc.Manifest.DatasetSize ≤ maxSize)) := by
  simp only [OnNewEnvelope, cache, hdec, OnNewEnvelopeDecoded, cacheDecoded, hget, hst, hbody,
    hman]
  by_cases hle : cdc.Manifest.DatasetSize ≤ maxSize
  · have hgt : ¬ cdc.Manifest.DatasetSize > maxSize := not_lt.mpr hle
    constructor <;> intro u <;>
      cases hpost : w.post (triggerUrl (getCodexUrl env) cr.Payload.CID) <;>
        simp [hgt, hle, hpost] <;> split <;> simp
  · have hgt : cdc.Manifest.DatasetSize > maxSize := not_le.mp hle
    constructor <;> intro u <;> simp [hgt, hle]

/-- Witness for C1 at a concrete run: scenario A world, 2 MB manifest,
default 5 MiB threshold. -/
theorem C1_witness :
    (∀ u, Call.post u ∈ (OnNewEnvelope wOK "" 5242880 (some samplePayload)).calls ↔
      (u = triggerUrl (getCodexUrl "") sampleCr.Payload.CID ∧
        (cdcOfSize 2000000).Manifest.DatasetSize ≤ 5242880)) ∧
    (∀ u, Call.post u ∈ (cache wOK "" 5242880 (some samplePayload)).calls ↔
      (u = triggerUrl (getCodexUrl "") sampleCr.Payload.CID ∧
        (cdcOfSize 2000000).Manifest.DatasetSize ≤ 5242880)) :=
  C1_size_policy_gates_trigger wOK "" 5242880 (some samplePayload) sampleCr
    (respOfSize 2000000) (manifestJsonOfSize 2000000) (cdcOfSize 2000000) rfl rfl rfl rfl rfl

/-- Claim C4: when decoding succeeds, the manifest resolves with a
datasetSize within the threshold, and the trigger answers 200, the
success counter increases by exactly 1, the failure counter does not
move, and the size histogram receives exactly one observation equal to
datasetSize / 1024. -/
theorem C4_success_accounting
    (w : World) (env : String) (maxSize : Int) (payload : Option Json)
    (cr : QakuMessage) (resp : HttpGetResp) (bj : Json) (cdc : CodexDataContent)
    (hdec : unmarshalQakuMessage payload = Except.ok cr)
    (hget : w.get (manifestUrl (getCodexUrl env) cr.Payload.CID) = some resp)
    (hst : resp.statusCode = 200)
    (hbody : resp.body = BodyRead.json bj)
    (hman : unmarshalCodexDataContent bj = Except.ok cdc)
    (hsize : cdc.Manifest.DatasetSize ≤ maxSize)
    (hpost : w.post (triggerUrl (getCodexUrl env) cr.Payload.CID) = some 200) :
    (OnNewEnvelope w env maxSize payload).succ = 1 ∧
    (OnNewEnvelope w env maxSize payload).fail = 0 ∧
    (OnNewEnvelope w env maxSize payload).obs = [(cdc.Manifest.DatasetSize : ℚ) / 1024] := by
  simp only [OnNewEnvelope, hdec, OnNewEnvelopeDecoded, hget, hst, hbody, hman, hpost]
  simp [not_lt.mpr hsize]

/-- Witness for C4: scenario A of the spec; the single observation is
2000000 / 1024 kilobytes. -/
theorem C4_witness :
    (OnNewEnvelope wOK "" 5242880 (some samplePayload)).succ = 1 ∧
    (OnNewEnvelope wOK "" 5242880 (some samplePayload)).fail = 0 ∧
    (OnNewEnvelope wOK "" 5242880 (some samplePayload)).obs =
      [((cdcOfSize 2000000).Manifest.DatasetSize : ℚ) / 1024] :=
  C4_success_accounting wOK "" 5242880 (some samplePayload) sampleCr
    (respOfSize 2000000) (manifestJsonOfSize 2000000) (cdcOfSize 2000000)
    rfl rfl rfl rfl rfl (by decide) rfl

/-- Claim C6: when json.Unmarshal of the payload fails (malformed bytes
or a non-object), neither the manifest resolver nor the trigger is
invoked — the run makes zero outbound calls — and the failure counter
increases by exactly 1.  Stated for both handler variants. -/
theorem C6_malformed_payload
    (w : World) (env : String) (maxSize : Int) (payload : Option Json)
    (e : Unit) (hdec : unmarshalQakuMessage payload = Except.error e) :
    (OnNewEnvelope w env maxSize payload).calls = [] ∧
    (OnNewEnvelope w env maxSize payload).fail = 1 ∧
    (OnNewEnvelope w env maxSize payload).succ = 0 ∧
    (cache w env maxSize payload).calls = [] ∧
    (cache w env maxSize payload).fail = 1 ∧
    (cache w env maxSize payload).succ = 0 := by
  simp [OnNewEnvelope, cache, hdec]

/-- Witness for C6: bytes that are not well-formed JSON. -/
theorem C6_witness :
    (OnNewEnvelope wOK "" 5242880 none).calls = [] ∧
    (OnNewEnvelope wOK "" 5242880 none).fail = 1 ∧
    (OnNewEnvelope wOK "" 5242880 none).succ = 0 ∧
    (cache wOK "" 5242880 none).calls = [] ∧
    (cache wOK "" 5242880 none).fail = 1 ∧
    (cache wOK "" 5242880 none).succ = 0 :=
  C6_malformed_payload wOK "" 5242880 none () rfl

/-- If the ParseInt core reports a syntax error it also returned 0. -/
theorem atoiCore_invalid_val (neg : Bool) (digits : List Char)
    (h : (atoiCore neg digits).2 = AtoiErr.invalid) : (atoiCore neg digits).1 = 0 := by
  revert h
  unfold atoiCore
  repeat' split
  all_goals simp

/-- If strconv.Atoi reports a syntax error it also returned the value 0. -/
theorem goAtoi_invalid_val (s : String) (h : (goAtoi s).2 = AtoiErr.invalid) :
    (goAtoi s).1 = 0 := by
  unfold goAtoi at h ⊢
  exact atoiCore_invalid_val _ _ h

/-- Claim C8: the resolved threshold is always strictly positive, and an
absent, syntactically malformed, or non-positive environment value leaves
the built-in default of 5242880 bytes in place. -/
theorem C8_default_retained (s : String) :
    0 < resolveMaxDatasetSize s ∧
    (((goAtoi s).2 = AtoiErr.invalid ∨ (goAtoi s).1 ≤ 0) →
      resolveMaxDatasetSize s = 5242880) := by
  constructor
  · unfold resolveMaxDatasetSize
    split
    · omega
    · norm_num [defaultMaxSize]
  · intro h
    have hv : (goAtoi s).1 ≤ 0 := by
      rcases h with h | h
      · rw [goAtoi_invalid_val s h]
      · exact h
    unfold resolveMaxDatasetSize
    rw [if_neg (by omega)]
    norm_num [defaultMaxSize]

/-- Witness for C8: a malformed value and the empty (absent) value both
leave the default in place. -/
theorem C8_witness :
    (0 < resolveMaxDatasetSize "abc" ∧
      (((goAtoi "abc").2 = AtoiErr.invalid ∨ (goAtoi "abc").1 ≤ 0) →
        resolveMaxDatasetSize "abc" = 5242880)) ∧
    resolveMaxDatasetSize "abc" = 5242880 :=
  ⟨C8_default_retained "abc", (C8_default_retained "abc").2 (Or.inl (by decide))⟩

/-- Counterexample to claim C2 as stated: a policy denial is a terminal
outcome (the handler returns, with a nil error), yet neither the success
nor the failure counter is incremented, in either handler variant. -/
theorem C2_counterexample :
    policyDenied wBig "" 5242880 (some samplePayload) ∧
    (OnNewEnvelope wBig "" 5242880 (some samplePayload)).retNil = true ∧
    (OnNewEnvelope wBig "" 5242880 (some samplePayload)).succ = 0 ∧
    (OnNewEnvelope wBig "" 5242880 (some samplePayload)).fail = 0 ∧
    (cache wBig "" 5242880 (some samplePayload)).succ = 0 ∧
    (cache wBig "" 5242880 (some samplePayload)).fail = 0 :=
  ⟨⟨sampleCr, cdcOfSize 20000000, rfl, by decide⟩, rfl, rfl, rfl, rfl, rfl⟩

/-- Claim C2 amended: in Cache.OnNewEnvelope, an announcement reaching a
terminal outcome increments exactly one of the two counters — except an
announcement denied by the size policy, which increments neither. -/
theorem C2_exactly_one_counter_unless_denied
    (w : World) (env : String) (maxSize : Int) (payload : Option Json) :
    ((OnNewEnvelope w env maxSize payload).succ + (OnNewEnvelope w env maxSize payload).fail = 0 ↔
      policyDenied w env maxSize payload) ∧
    (OnNewEnvelope w env maxSize payload).succ + (OnNewEnvelope w env maxSize payload).fail ≤ 1 := by
  unfold OnNewEnvelope OnNewEnvelopeDecoded policyDenied manifestOutcome
  dsimp only
  repeat' split
  all_goals simp_all
  all_goals exact ⟨_, _, ⟨rfl, rfl⟩, by omega⟩

/-- Counterexample to claim C3 as stated: a well-formed payload with no
cid field decodes successfully (json.Unmarshal requires no field), and
the pipeline goes on to query the manifest endpoint for the empty
contentId. -/
theorem C3_counterexample :
    unmarshalQakuMessage (some noCidPayload) = Except.ok noCidCr ∧
    noCidCr.Payload.CID = "" ∧
    Call.get (manifestUrl "http://codex:8080" "") ∈
      (OnNewEnvelope w404 "" 5242880 (some noCidPayload)).calls :=
  ⟨rfl, rfl, by decide⟩

/-- Claim C3 amended: decoding fails only when the payload is malformed
or a field has the wrong type; an absent or empty cid still decodes, and
every decoded announcement — the empty contentId included — proceeds to
the manifest query, in both handler variants. -/
theorem C3_decoded_always_queries_manifest
    (w : World) (env : String) (maxSize : Int) (payload : Option Json)
    (cr : QakuMessage) (hdec : unmarshalQakuMessage payload = Except.ok cr) :
    Call.get (manifestUrl (getCodexUrl env) cr.Payload.CID) ∈
      (OnNewEnvelope w env maxSize payload).calls ∧
    Call.get (manifestUrl (getCodexUrl env) cr.Payload.CID) ∈
      (cache w env maxSize payload).calls := by
  simp only [OnNewEnvelope, cache, hdec, OnNewEnvelopeDecoded, cacheDecoded]
  constructor <;> (repeat' split) <;> simp

/-- Witness for C3 amended, at a payload whose cid field is absent. -/
theorem C3_witness :
    Call.get (manifestUrl (getCodexUrl "") noCidCr.Payload.CID) ∈
      (OnNewEnvelope wOK "" 5242880 (some noCidPayload)).calls ∧
    Call.get (manifestUrl (getCodexUrl "") noCidCr.Payload.CID) ∈
      (cache wOK "" 5242880 (some noCidPayload)).calls :=
  C3_decoded_always_queries_manifest wOK "" 5242880 (some noCidPayload) noCidCr rfl

/-- Counterexample to claim C5 as stated: in the cache variant of
main.go, a manifest query answered with status 404 returns while err is
still nil, so the failure counter does not move at all. -/
theorem C5_counterexample :
    unmarshalQakuMessage (some samplePayload) = Except.ok sampleCr ∧
    w404.get (manifestUrl "http://codex:8080" "zCID1") =
      some { statusCode := 404, body := BodyRead.readErr } ∧
    (cache w404 "" 5242880 (some samplePayload)).fail = 0 ∧
    (cache w404 "" 5242880 (some samplePayload)).succ = 0 :=
  ⟨rfl, rfl, rfl, rfl⟩

/-- Claim C5 amended: in Cache.OnNewEnvelope the claim holds as stated —
every run returning a non-nil error (decode failure, manifest transport
error or non-200 status, body read or parse failure, trigger transport
error or non-200 status) increments the failure counter by exactly 1 and
never the success counter, and after a manifest-resolution failure no
trigger request is made.  (In the cache variant of main.go, non-200
manifest and trigger statuses increment neither counter.) -/
theorem C5_failure_accounting
    (w : World) (env : String) (maxSize : Int) (payload : Option Json) :
    ((OnNewEnvelope w env maxSize payload).retNil = false →
      (OnNewEnvelope w env maxSize payload).fail = 1 ∧
      (OnNewEnvelope w env maxSize payload).succ = 0) ∧
    (∀ cr, unmarshalQakuMessage payload = Except.ok cr →
      (w.get (manifestUrl (getCodexUrl env) cr.Payload.CID) = none ∨
        ∃ resp, w.get (manifestUrl (getCodexUrl env) cr.Payload.CID) = some resp ∧
          resp.statusCode ≠ 200) →
      (OnNewEnvelope w env maxSize payload).fail = 1 ∧
      ∀ u, Call.post u ∉ (OnNewEnvelope w env maxSize payload).calls) := by
  constructor
  · unfold OnNewEnvelope OnNewEnvelopeDecoded
    dsimp only
    repeat' split
    all_goals simp
  · intro cr hdec hor
    simp only [OnNewEnvelope, hdec, OnNewEnvelopeDecoded]
    rcases hor with hnone | ⟨resp, hresp, hst⟩
    · rw [hnone]
      simp
    · rw [hresp]
      simp [hst]

/-- Witness for C5 amended: scenario C, a 404 manifest response. -/
theorem C5_witness :
    (OnNewEnvelope w404 "" 5242880 (some samplePayload)).fail = 1 ∧
    ∀ u, Call.post u ∉ (OnNewEnvelope w404 "" 5242880 (some samplePayload)).calls :=
  (C5_failure_accounting w404 "" 5242880 (some samplePayload)).2 sampleCr rfl
    (Or.inr ⟨{ statusCode := 404, body := BodyRead.readErr }, rfl, by decide⟩)

/-- Counterexample to claim C7 as stated: the histogram observation is
recorded before the trigger POST, so an announcement whose trigger is
answered 500 — a Failed outcome that increments the failure counter —
still receives a size observation. -/
theorem C7_counterexample :
    (OnNewEnvelope wTriggerFail "" 5242880 (some samplePayload)).fail = 1 ∧
    (OnNewEnvelope wTriggerFail "" 5242880 (some samplePayload)).succ = 0 ∧
    (OnNewEnvelope wTriggerFail "" 5242880 (some samplePayload)).obs =
      [(2000000 : ℚ) / 1024] :=
  ⟨rfl, rfl, rfl⟩

/-- Claim C7 amended: the size observer receives an observation exactly
when the announcement passes the size policy (decode, manifest
resolution and parse succeeded, size within threshold), the observation
being recorded before the trigger call and therefore regardless of its
outcome; denied announcements and announcements failing before the
policy receive none, and no run records more than one observation. -/
theorem C7_observation_iff_permitted
    (w : World) (env : String) (maxSize : Int) (payload : Option Json) :
    ((OnNewEnvelope w env maxSize payload).obs ≠ [] ↔
      policyPermitted w env maxSize payload) ∧
    (OnNewEnvelope w env maxSize payload).obs.length ≤ 1 := by
  unfold OnNewEnvelope OnNewEnvelopeDecoded policyPermitted manifestOutcome
  dsimp only
  repeat' split
  all_goals simp_all
  all_goals exact ⟨_, _, ⟨rfl, rfl⟩, by omega⟩

/-- After decoding, Cache.OnNewEnvelope reads only the Payload field of
the message: two messages with equal payloads run identically. -/
theorem OnNewEnvelopeDecoded_payload_only (w : World) (env : String) (maxSize : Int)
    (m1 m2 : QakuMessage) (h : m1.Payload = m2.Payload) :
    OnNewEnvelopeDecoded w env maxSize m1 = OnNewEnvelopeDecoded w env maxSize m2 := by
  unfold OnNewEnvelopeDecoded
  rw [h]

/-- After decoding, the cache function of main.go reads only the Payload
field of the message. -/
theorem cacheDecoded_payload_only (w : World) (env : String) (maxSize : Int)
    (m1 m2 : QakuMessage) (h : m1.Payload = m2.Payload) :
    cacheDecoded w env maxSize m1 = cacheDecoded w env maxSize m2 := by
  unfold cacheDecoded
  rw [h]

/-- Claim C9: the pipeline is independent of signature, signer and
timestamp — two decodable announcements with the same kind tag and the
same embedded request produce identical runs (same outbound requests,
same counter deltas, same observations), in both handler variants. -/
theorem C9_signature_signer_timestamp_independent
    (w : World) (env : String) (maxSize : Int) (p1 p2 : Option Json)
    (m1 m2 : QakuMessage)
    (h1 : unmarshalQakuMessage p1 = Except.ok m1)
    (h2 : unmarshalQakuMessage p2 = Except.ok m2)
    (htype : m1.type = m2.type)
    (hpayload : m1.Payload = m2.Payload) :
    OnNewEnvelope w env maxSize p1 = OnNewEnvelope w env maxSize p2 ∧
    cache w env maxSize p1 = cache w env maxSize p2 := by
  constructor
  · simp only [OnNewEnvelope, h1, h2]
    exact OnNewEnvelopeDecoded_payload_only w env maxSize m1 m2 hpayload
  · simp only [cache, h1, h2]
    exact cacheDecoded_payload_only w env maxSize m1 m2 hpayload

/-- A second payload identical to samplePayload except in timestamp,
signature and signer. -/
def samplePayloadAlt : Json :=
  Json.obj [("type", Json.str "persist"),
            ("payload", Json.obj [("cid", Json.str "zCID1"), ("owner", Json.str "alice"),
                                  ("hash", Json.str "h1")]),
            ("timestamp", Json.num 1800000000),
            ("signature", Json.str "sigB"),
            ("signer", Json.str "0xBob")]

/-- The QakuMessage that samplePayloadAlt decodes to. -/
def sampleCrAlt : QakuMessage :=
  { type := "persist",
    Payload := { CID := "zCID1", Owner := "alice", Hash := "h1" },
    Timestamp := 1800000000, Signature := "sigB", Signer := "0xBob" }

/-- Witness for C9: two concrete announcements differing only in
timestamp, signature and signer run identically. -/
theorem C9_witness :
    OnNewEnvelope wOK "" 5242880 (some samplePayload) =
      OnNewEnvelope wOK "" 5242880 (some samplePayloadAlt) ∧
    cache wOK "" 5242880 (some samplePayload) =
      cache wOK "" 5242880 (some samplePayloadAlt) :=
  C9_signature_signer_timestamp_independent wOK "" 5242880
    (some samplePayload) (some samplePayloadAlt) sampleCr sampleCrAlt rfl rfl rfl rfl

/-- The fields of a JSON object with the message kind tag set to the
given optional string value (no tag at all when none). -/
def withTypeField (fs : List (String × Json)) : Option String → List (String × Json)
  | none => fs
  | some s => ("type", Json.str s) :: fs

/-- Prepending a binding for a different key does not change a lookup. -/
theorem lookupField_cons_ne (k2 : String) (v : Json) (fs : List (String × Json))
    (k : String) (h : k2 ≠ k) : lookupField ((k2, v) :: fs) k = lookupField fs k := by
  have hstep : lookupField ((k2, v) :: fs) k =
      (match lookupField fs k with
       | some v2 => some v2
       | none => if k2 = k then some v else none) := rfl
  rw [hstep]
  cases hl : lookupField fs k <;> simp [hl, h]

/-- Looking up any key other than the kind tag is unaffected by the tag. -/
theorem lookupField_withType_ne (fs : List (String × Json)) (s : Option String)
    (k : String) (h : k ≠ "type") :
    lookupField (withTypeField fs s) k = lookupField fs k := by
  cases s with
  | none => rfl
  | some s => exact lookupField_cons_ne "type" (Json.str s) fs k (fun he => h he.symm)

/-- Decoding the kind tag always succeeds when the tag is absent or any
string, yielding that string (or the zero value when absent). -/
theorem decodeStringField_withType (fs : List (String × Json))
    (hfs : lookupField fs "type" = none) (s : Option String) :
    decodeStringField (withTypeField fs s) "type" = Except.ok (s.getD "") := by
  cases s with
  | none => simp [decodeStringField, withTypeField, hfs]
  | some s => simp [decodeStringField, withTypeField, lookupField, hfs]

/-- Unmarshalling an object whose kind tag is absent or any string: the
result only differs from the tagless object in the type field. -/
theorem unmarshalQakuMessage_withType (fs : List (String × Json))
    (hfs : lookupField fs "type" = none) (s : Option String) :
    unmarshalQakuMessage (some (Json.obj (withTypeField fs s))) =
      (unmarshalQakuMessage (some (Json.obj fs))).map
        (fun m => { m with type := s.getD "" }) := by
  have hp : decodeCacheRequestField (withTypeField fs s) "payload" =
      decodeCacheRequestField fs "payload" := by
    unfold decodeCacheRequestField
    rw [lookupField_withType_ne fs s "payload" (by decide)]
  have hts : decodeIntField (withTypeField fs s) "timestamp" =
      decodeIntField fs "timestamp" := by
    unfold decodeIntField
    rw [lookupField_withType_ne fs s "timestamp" (by decide)]
  have hsig : decodeStringField (withTypeField fs s) "signature" =
      decodeStringField fs "signature" := by
    unfold decodeStringField
    rw [lookupField_withType_ne fs s "signature" (by decide)]
  have hsigner : decodeStringField (withTypeField fs s) "signer" =
      decodeStringField fs "signer" := by
    unfold decodeStringField
    rw [lookupField_withType_ne fs s "signer" (by decide)]
  have ht0 : decodeStringField fs "type" = Except.ok "" := by
    simp [decodeStringField, hfs]
  simp only [unmarshalQakuMessage, decodeStringField_withType fs hfs s, hp, hts, hsig,
    hsigner, ht0]
  cases decodeCacheRequestField fs "payload" with
  | error e => rfl
  | ok p =>
    cases decodeIntField fs "timestamp" with
    | error e => rfl
    | ok ts =>
      cases decodeStringField fs "signature" with
      | error e => rfl
      | ok sig =>
        cases decodeStringField fs "signer" with
        | error e => rfl
        | ok signer => rfl

/-- Claim C10: the pipeline never inspects the message kind tag.  For a
payload object without a tag, adding any string tag — empty, "persist"
or anything else — or none at all yields identical runs in both handler
variants; and after decoding, neither handler reads the Type field. -/
theorem C10_type_tag_ignored
    (w : World) (env : String) (maxSize : Int)
    (fs : List (String × Json)) (hfs : lookupField fs "type" = none)
    (s1 s2 : Option String) (m : QakuMessage) (t : String) :
    (OnNewEnvelope w env maxSize (some (Json.obj (withTypeField fs s1))) =
      OnNewEnvelope w env maxSize (some (Json.obj (withTypeField fs s2)))) ∧
    (cache w env maxSize (some (Json.obj (withTypeField fs s1))) =
      cache w env maxSize (some (Json.obj (withTypeField fs s2)))) ∧
    (OnNewEnvelopeDecoded w env maxSize { m with type := t } =
      OnNewEnvelopeDecoded w env maxSize m) ∧
    (cacheDecoded w env maxSize { m with type := t } =
      cacheDecoded w env maxSize m) := by
  have h1 := unmarshalQakuMessage_withType fs hfs s1
  have h2 := unmarshalQakuMessage_withType fs hfs s2
  refine ⟨?_, ?_, ?_, ?_⟩
  · simp only [OnNewEnvelope, h1, h2]
    cases hm : unmarshalQakuMessage (some (Json.obj fs)) with
    | error e => simp [Except.map]
    | ok m0 =>
      simp only [Except.map]
      exact OnNewEnvelopeDecoded_payload_only w env maxSize _ _ rfl
  · simp only [cache, h1, h2]
    cases hm : unmarshalQakuMessage (some (Json.obj fs)) with
    | error e => simp [Except.map]
    | ok m0 =>
      simp only [Except.map]
      exact cacheDecoded_payload_only w env maxSize _ _ rfl
  · exact OnNewEnvelopeDecoded_payload_only w env maxSize _ _ rfl
  · exact cacheDecoded_payload_only w env maxSize _ _ rfl

/-- The object fields of samplePayload without any kind tag. -/
def noTypeFields : List (String × Json) :=
  [("payload", Json.obj [("cid", Json.str "zCID1"), ("owner", Json.str "alice"),
                         ("hash", Json.str "h1")]),
   ("timestamp", Json.num 1700000000)]

/-- Witness for C10: the tag "persist" and no tag at all run identically
on a concrete announcement, and a concrete decoded message runs the same
with its Type field overwritten. -/
theorem C10_witness :
    (OnNewEnvelope wOK "" 5242880 (some (Json.obj (withTypeField noTypeFields (some "persist")))) =
      OnNewEnvelope wOK "" 5242880 (some (Json.obj (withTypeField noTypeFields none)))) ∧
    (cache wOK "" 5242880 (some (Json.obj (withTypeField noTypeFields (some "persist")))) =
      cache wOK "" 5242880 (some (Json.obj (withTypeField noTypeFields none)))) ∧
    (OnNewEnvelopeDecoded wOK "" 5242880 { sampleCr with type := "other" } =
      OnNewEnvelopeDecoded wOK "" 5242880 sampleCr) ∧
    (cacheDecoded wOK "" 5242880 { sampleCr with type := "other" } =
      cacheDecoded wOK "" 5242880 sampleCr) :=
  C10_type_tag_ignored wOK "" 5242880 noTypeFields rfl (some "persist") none sampleCr "other"

end QakuCache
